import Mathlib

/-!
Verification of the news backend (src/main.py, src/schemas.py).

The Python code is shallowly embedded: JSON/BSON values become the inductive
type Value, Python dicts become association lists with distinct keys, the
FastAPI handlers become Lean functions over an abstract or spec-modelled store
adapter, and Python exceptions become the Except monad.
-/

set_option autoImplicit false

namespace NewsBackend

/-- A BSON/JSON value as far as the handlers distinguish them: strings,
booleans, ObjectIds (carrying their 24-hex string form) and None. -/
inductive Value where
  | str (s : String)
  | bool (b : Bool)
  | objectId (s : String)
  | null
  deriving DecidableEq, Repr

/-- A Python dict, modelled as an association list; real dicts have distinct
keys, which theorems assume via Nodup where it matters. -/
def Doc : Type := List (String × Value)

instance : DecidableEq Doc := by unfold Doc; infer_instance

instance : Repr Doc := by unfold Doc; infer_instance

instance : Append Doc := ⟨fun a b => List.append a b⟩

/-- First-match lookup, the model of Python dict indexing / membership. -/
def lookupKey : Doc → String → Option Value
  | [], _ => none
  | (k, v) :: rest, key => if k = key then some v else lookupKey rest key

/-- Removal of a key, the model of dict.pop. -/
def eraseKey : Doc → String → Doc
  | [], _ => []
  | (k, v) :: rest, key => if k = key then rest else (k, v) :: eraseKey rest key

/-- Assignment d[key] = v: replaces the value in place when the key exists,
otherwise appends the new binding at the end (Python insertion order). -/
def setKey : Doc → String → Value → Doc
  | [], key, v => [(key, v)]
  | (k, w) :: rest, key, v =>
      if k = key then (k, v) :: rest else (k, w) :: setKey rest key v

/-- Python str() on the values the code can feed it; str of an ObjectId is its
24-hex representation. -/
def strVal : Value → String
  | .str s => s
  | .bool b => if b then "True" else "False"
  | .objectId s => s
  | .null => "None"

/-- The body of the loop in serialize_doc: an ObjectId value is replaced by its
string form, every other value is kept. -/
def convertVal : Value → Value
  | .objectId s => .str s
  | v => v

def isObjectId : Value → Bool
  | .objectId _ => true
  | _ => false

/-- The loop for k, v in list(doc.items()) of serialize_doc: only values
change, so it is a map over the entries. -/
def convertOids (doc : Doc) : Doc :=
  doc.map (fun kv => (kv.1, convertVal kv.2))

/-- serialize_doc from src/main.py lines 22-32: falsy input is returned as is;
otherwise, on a copy, the _id binding (when present) is popped and re-inserted
as id holding its string form, then every remaining ObjectId value is
stringified. -/
def serialize_doc (doc : Doc) : Doc :=
  if doc = [] then doc
  else
    let doc1 : Doc :=
      match lookupKey doc "_id" with
      | some v => setKey (eraseKey doc "_id") "id" (.str (strVal v))
      | none => doc
    convertOids doc1

/-- serialize_doc on an optional argument: Python None is falsy, so it is
returned unchanged. -/
def serialize_docOpt : Option Doc → Option Doc
  | none => none
  | some d => some (serialize_doc d)

/-! A small object heap for the frame property of serialize_doc: references
are indices into a list of dicts, and dict(doc) allocates a fresh cell, so the
mutations of the function body never touch the caller's cell. -/

def heapGet (h : List Doc) (r : Nat) : Doc := h.getD r []

def heapSet (h : List Doc) (r : Nat) (d : Doc) : List Doc := h.set r d

/-- The first mutation of serialize_doc on the heap cell r2 holding the copy:
pop _id and store its string form under id, when _id is present. -/
def serialize_docStep1 (h1 : List Doc) (r2 : Nat) : List Doc :=
  match lookupKey (heapGet h1 r2) "_id" with
  | some v => heapSet h1 r2 (setKey (eraseKey (heapGet h1 r2) "_id") "id" (.str (strVal v)))
  | none => h1

/-- The second mutation: the conversion loop over the entries of the cell. -/
def serialize_docStep2 (h1 : List Doc) (r2 : Nat) : List Doc :=
  heapSet (serialize_docStep1 h1 r2) r2 (convertOids (heapGet (serialize_docStep1 h1 r2) r2))

/-- serialize_doc acting on a heap cell: for falsy input the argument itself is
returned with the heap untouched; otherwise the local variable doc is rebound
to a freshly allocated copy — exactly what dict(doc) does — and every mutation
targets that copy, whose reference is returned. -/
def serialize_docM (h : List Doc) (r : Nat) : List Doc × Nat :=
  if heapGet h r = [] then (h, r)
  else (serialize_docStep2 (h ++ [heapGet h r]) h.length, h.length)

/-! The HTTP layer. Handlers signal failure by raising HTTPException, modelled
as an Except error; FastAPI turns an uncaught one into a response with that
status. -/

/-- fastapi.HTTPException as the handlers use it: a status code and a detail
string. -/
structure HTTPError where
  status : Nat
  detail : String
  deriving DecidableEq, Repr

/-- Python str() of an HTTPException, as Starlette renders it. -/
def strHTTPError (e : HTTPError) : String :=
  toString e.status ++ ": " ++ e.detail

/-- The exceptions that can arise inside the try block of get_news_item: the
HTTPException raised for a missing record, the InvalidId error of the ObjectId
constructor, and any error raised by the store lookup. -/
inductive HandlerExc where
  | http (e : HTTPError)
  | invalidId (msg : String)
  | dbErr (msg : String)
  deriving DecidableEq, Repr

/-- str(e) for each exception the except-clauses can catch. -/
def excMessage : HandlerExc → String
  | .http e => strHTTPError e
  | .invalidId m => m
  | .dbErr m => m

/-- A bson ObjectId is constructible exactly from a 24-character hex string
(the 12-byte form does not arise from a URL path parameter). -/
def isValidObjectIdHex (s : String) : Bool :=
  s.length == 24 && s.toList.all (fun c => c.isDigit || ("abcdefABCDEF".toList.contains c))

/-- The InvalidId message of the bson ObjectId constructor (external library,
modelled up to quoting). -/
def invalidIdMessage (s : String) : String :=
  s ++ " is not a valid ObjectId, it must be a 12-byte input or a 24-character hex string"

/-- list_news from src/main.py lines 101-111, over the store adapter function
get_documents; limit defaults to 12 and featured to None, the filter is empty
unless featured was provided, and any store error becomes a 500. -/
def list_news (get_documents : String → Doc → Nat → Except String (List Doc))
    (limit : Nat := 12) (featured : Option Bool := none) : Except HTTPError (List Doc) :=
  let filter_dict : Doc := []
  let filter_dict : Doc :=
    match featured with
    | some b => setKey filter_dict "featured" (.bool b)
    | none => filter_dict
  match get_documents "newsitem" filter_dict limit with
  | .ok items => .ok (items.map serialize_doc)
  | .error e => .error ⟨500, e⟩

/-- featured_news from src/main.py lines 113-115: delegates to list_news with
featured=True; limit defaults to 6. -/
def featured_news (get_documents : String → Doc → Nat → Except String (List Doc))
    (limit : Nat := 6) : Except HTTPError (List Doc) :=
  list_news get_documents limit (some true)

/-- get_news_item from src/main.py lines 117-126, over the raw find_one
operation of the store. The whole body, including the raise of the 404
HTTPException, sits inside the try, and the except-clause catches every
exception — HTTPException included — and rewraps it as a 500. -/
def get_news_item (find_one : Doc → Except String (Option Doc)) (news_id : String) :
    Except HTTPError Doc :=
  let body : Except HandlerExc Doc :=
    if isValidObjectIdHex news_id then
      match find_one [("_id", .objectId news_id)] with
      | .error m => .error (.dbErr m)
      | .ok itemOpt =>
          match itemOpt with
          | none => .error (.http ⟨404, "News item not found"⟩)
          | some item =>
              if item = [] then .error (.http ⟨404, "News item not found"⟩)
              else .ok (serialize_doc item)
    else .error (.invalidId (invalidIdMessage news_id))
  match body with
  | .ok v => .ok v
  | .error e => .error ⟨500, excMessage e⟩

/-! Request validation for POST /api/news: the NewsCreate pydantic model from
src/main.py lines 92-99, and the validation FastAPI performs on the request
body before the handler runs. -/

/-- The NewsCreate shape: two required strings, four optional strings and a
boolean defaulting to false. -/
structure NewsCreate where
  title_en : String
  title_ar : String
  body_en : Option String := none
  body_ar : Option String := none
  image_url : Option String := none
  tag : Option String := none
  featured : Bool := false
  deriving DecidableEq, Repr

/-- item.model_dump(): the validated fields, and only them, as a dict. -/
def model_dump (n : NewsCreate) : Doc :=
  [ ("title_en", .str n.title_en),
    ("title_ar", .str n.title_ar),
    ("body_en", match n.body_en with | some s => .str s | none => .null),
    ("body_ar", match n.body_ar with | some s => .str s | none => .null),
    ("image_url", match n.image_url with | some s => .str s | none => .null),
    ("tag", match n.tag with | some s => .str s | none => .null),
    ("featured", .bool n.featured) ]

/-- A required string field: missing or non-string input fails validation. -/
def requireStr (p : Doc) (key : String) : Except String String :=
  match lookupKey p key with
  | none => .error ("Field required: " ++ key)
  | some (.str s) => .ok s
  | some _ => .error ("Input should be a valid string: " ++ key)

/-- An optional string field: absent or None validates to None. -/
def optionalStr (p : Doc) (key : String) : Except String (Option String) :=
  match lookupKey p key with
  | none => .ok none
  | some .null => .ok none
  | some (.str s) => .ok (some s)
  | some _ => .error ("Input should be a valid string: " ++ key)

/-- A boolean field with a default for absence. -/
def boolWithDefault (p : Doc) (key : String) (dflt : Bool) : Except String Bool :=
  match lookupKey p key with
  | none => .ok dflt
  | some (.bool b) => .ok b
  | some _ => .error ("Input should be a valid boolean: " ++ key)

/-- Validation of a request body against NewsCreate: required fields enforced,
unknown fields ignored, defaults applied. -/
def parseNewsCreate (p : Doc) : Except String NewsCreate :=
  match requireStr p "title_en" with
  | .error e => .error e
  | .ok te =>
  match requireStr p "title_ar" with
  | .error e => .error e
  | .ok ta =>
  match optionalStr p "body_en" with
  | .error e => .error e
  | .ok be =>
  match optionalStr p "body_ar" with
  | .error e => .error e
  | .ok ba =>
  match optionalStr p "image_url" with
  | .error e => .error e
  | .ok iu =>
  match optionalStr p "tag" with
  | .error e => .error e
  | .ok tg =>
  match boolWithDefault p "featured" false with
  | .error e => .error e
  | .ok fe => .ok ⟨te, ta, be, ba, iu, tg, fe⟩

/-- The response of a successful create. -/
structure CreateResponse where
  id : String
  status : String
  deriving DecidableEq, Repr

/-- create_news from src/main.py lines 128-135, over the store adapter
function create_document: inserts item.model_dump() and returns the new
identifier with a status marker; any store error becomes a 500. -/
def create_news (create_document : String → Doc → Except String String)
    (item : NewsCreate) : Except HTTPError CreateResponse :=
  match create_document "newsitem" (model_dump item) with
  | .ok new_id => .ok ⟨new_id, "created"⟩
  | .error e => .error ⟨500, e⟩

/-- The full POST /api/news route: the validation layer runs first and rejects
with a 422 before the handler is entered; the second component records every
invocation of create_document made while handling the request. -/
def post_api_news (create_document : String → Doc → Except String String)
    (payload : Doc) : Except HTTPError CreateResponse × List (String × Doc) :=
  match parseNewsCreate payload with
  | .error e => (.error ⟨422, e⟩, [])
  | .ok item => (create_news create_document item, [("newsitem", model_dump item)])

/-! The diagnostic endpoint GET /test from src/main.py lines 45-87. -/

/-- What the attempt to import and use the database module can encounter: the
importing raises ImportError, or raises some other exception, db is None,
or db is an object whose name attribute may be absent and whose
list_collection_names() either returns or raises. -/
inductive DbBehavior where
  | importError
  | otherError (msg : String)
  | dbNone
  | available (name : Option String) (listColl : Except String (List String))

/-- The response dict built by test_database. database_url and database_name
start as None and are overwritten before returning. -/
structure TestResponse where
  backend : String
  database : String
  database_url : Option String
  database_name : Option String
  connection_status : String
  collections : List String
  deriving DecidableEq, Repr

/-- test_database from src/main.py lines 45-87: every failure of the store is
caught and reported as a descriptive string in the database field; the
environment check overwrites database_url and database_name at the end; a
successful listing is truncated to the first 10 collection names. The result
is an Except so that an escaping exception would be visible as an error. -/
def test_database (beh : DbBehavior) (hasUrl hasName : Bool) :
    Except String TestResponse :=
  let response : TestResponse :=
    ⟨"✅ Running", "❌ Not Available", none, none, "Not Connected", []⟩
  let response : TestResponse :=
    match beh with
    | .importError =>
        { response with database := "❌ Database module not found (run enable-database first)" }
    | .otherError e =>
        { response with database := "❌ Error: " ++ e.take 50 }
    | .dbNone =>
        { response with database := "⚠️  Available but not initialized" }
    | .available name listColl =>
        let response := { response with
          database := "✅ Available",
          database_url := some "✅ Configured",
          database_name := some (name.getD "✅ Connected"),
          connection_status := "Connected" }
        match listColl with
        | .ok collections =>
            { response with
              collections := collections.take 10,
              database := "✅ Connected & Working" }
        | .error e =>
            { response with database := "⚠️  Connected but Error: " ++ e.take 50 }
  let response := { response with
    database_url := some (if hasUrl then "✅ Set" else "❌ Not Set"),
    database_name := some (if hasName then "✅ Set" else "❌ Not Set") }
  .ok response

/-! The document store adapter. Its internals are not part of this repository
(spec section 4.2 calls it an external collaborator), so the operations the
seed and listing claims need are modelled from the spec. -/

/-- Modelled from the spec: the state of the document store, absent from this
repository. Records live in named collections (section 4.2); identifiers are
store-generated unique strings (section 3, Glossary), modelled by a counter. -/
structure Store where
  docs : List (String × Doc)
  nextId : Nat
  deriving DecidableEq, Repr

/-- Modelled from the spec: a fresh store-generated identifier string, unique
per counter value (Glossary: a store-generated unique string). -/
def freshId (n : Nat) : String :=
  "57a98d98e4b0abc" ++ String.mk (List.replicate n 'a')

/-- Modelled from the spec: create_document(collection, data) inserts the
record into the named collection and returns the new identifier string
(section 4.2); the stored record carries the identifier internally as _id,
the internal form that serialization renames (section 3). -/
def Store.create_document (st : Store) (collection : String) (data : Doc) :
    String × Store :=
  let newId := freshId st.nextId
  (newId, ⟨st.docs ++ [(collection, setKey data "_id" (.objectId newId))], st.nextId + 1⟩)

/-- Does a record satisfy every condition of a filter dict? -/
def matchesFilter (filter : Doc) (d : Doc) : Bool :=
  filter.all (fun kv => lookupKey d kv.1 == some kv.2)

/-- Modelled from the spec: get_documents(collection, filter, limit) returns
the records of the collection that match the filter, capped at limit
(section 4.2); no ordering is guaranteed there, and insertion order is the
admissible choice taken here. -/
def Store.get_documents (st : Store) (collection : String) (filter : Doc)
    (limit : Nat) : List Doc :=
  (((st.docs.filter (fun cd => cd.1 = collection)).map Prod.snd).filter
    (matchesFilter filter)).take limit

/-- The adapter function list_news consumes, read off a store state. -/
def storeGetDocs (st : Store) : String → Doc → Nat → Except String (List Doc) :=
  fun collection filter limit => .ok (st.get_documents collection filter limit)

/-- The first seed record of src/main.py lines 142-150. -/
def sample1 : Doc :=
  [ ("title_en", .str "AIO launches next-gen automation suite"),
    ("title_ar", .str "إطلاق حزمة الأتمتة من الجيل التالي من AIO"),
    ("body_en", .str "We introduced new AI agents that cut process time by 60%."),
    ("body_ar", .str "قدمنا وكلاء ذكاء اصطناعي جدد يقلّصون زمن العمليات بنسبة 60٪."),
    ("tag", .str "Product"),
    ("featured", .bool true),
    ("image_url", .str "https://images.unsplash.com/photo-1555949963-aa79dcee981d?q=80&w=1400&auto=format&fit=crop") ]

/-- The second seed record of src/main.py lines 151-159. -/
def sample2 : Doc :=
  [ ("title_en", .str "AIO partners with leading cloud provider"),
    ("title_ar", .str "شراكة AIO مع مزود سحابي رائد"),
    ("body_en", .str "This strategic partnership accelerates deployments across MENA."),
    ("body_ar", .str "هذه الشراكة الإستراتيجية تسرّع عمليات النشر في منطقة الشرق الأوسط وشمال أفريقيا."),
    ("tag", .str "Press"),
    ("featured", .bool false),
    ("image_url", .str "https://images.unsplash.com/photo-1518779578993-ec3579fee39f?q=80&w=1400&auto=format&fit=crop") ]

/-- The third seed record of src/main.py lines 160-168. -/
def sample3 : Doc :=
  [ ("title_en", .str "ISO 27001 certification achieved"),
    ("title_ar", .str "الحصول على شهادة ISO 27001"),
    ("body_en", .str "Security remains our top priority as we scale."),
    ("body_ar", .str "لا تزال الحماية أولويتنا القصوى مع توسعنا."),
    ("tag", .str "Security"),
    ("featured", .bool true),
    ("image_url", .str "https://images.unsplash.com/photo-1556741533-f6acd6477f8e?q=80&w=1400&auto=format&fit=crop") ]

/-- The samples list of seed_news. -/
def seed_samples : List Doc := [sample1, sample2, sample3]

/-- The response of a successful seed call. -/
structure SeedResponse where
  inserted : Nat
  ids : List String
  deriving DecidableEq, Repr

/-- seed_news from src/main.py lines 137-176 over the spec-modelled store:
for each sample in order, create_document is called and its identifier
appended; the response reports the count and the identifiers. The modelled
create_document cannot fail, so the except-branch (a 500) is not reached. -/
def seed_news (st : Store) : Except HTTPError SeedResponse × Store :=
  let res := seed_samples.foldl
    (fun (acc : List String × Store) s =>
      let r := acc.2.create_document "newsitem" s
      (acc.1 ++ [r.1], r.2))
    ([], st)
  (.ok ⟨res.1.length, res.1⟩, res.2)

/-! Helper lemmas about the dict operations and serialize_doc. -/

theorem lookupKey_convertOids (d : Doc) (k : String) :
    lookupKey (convertOids d) k = (lookupKey d k).map convertVal := by
  induction d with
  | nil => rfl
  | cons kv rest ih =>
      obtain ⟨k1, v1⟩ := kv
      by_cases h : k1 = k
      · simp [convertOids, lookupKey, h]
      · simp only [convertOids, List.map_cons, lookupKey, h, if_neg h]
        simpa [convertOids] using ih

theorem lookupKey_setKey_self (d : Doc) (k : String) (v : Value) :
    lookupKey (setKey d k v) k = some v := by
  induction d with
  | nil => simp [setKey, lookupKey]
  | cons kv rest ih =>
      obtain ⟨k1, v1⟩ := kv
      by_cases h : k1 = k
      · simp [setKey, h, lookupKey]
      · simp [setKey, h, lookupKey, ih]

theorem lookupKey_setKey_ne (d : Doc) (k k2 : String) (v : Value) (h : k ≠ k2) :
    lookupKey (setKey d k v) k2 = lookupKey d k2 := by
  induction d with
  | nil => simp [setKey, lookupKey, h]
  | cons kv rest ih =>
      obtain ⟨k1, v1⟩ := kv
      by_cases h1 : k1 = k
      · subst h1
        simp [setKey, lookupKey, h]
      · simp [setKey, h1, lookupKey, ih]

theorem lookupKey_eraseKey_ne (d : Doc) (k k2 : String) (h : k ≠ k2) :
    lookupKey (eraseKey d k) k2 = lookupKey d k2 := by
  induction d with
  | nil => rfl
  | cons kv rest ih =>
      obtain ⟨k1, v1⟩ := kv
      by_cases h1 : k1 = k
      · subst h1
        simp [eraseKey, lookupKey, h]
      · simp [eraseKey, h1, lookupKey, ih]

theorem lookupKey_eq_none_of_not_mem (d : Doc) (k : String)
    (h : k ∉ d.map Prod.fst) : lookupKey d k = none := by
  induction d with
  | nil => rfl
  | cons kv rest ih =>
      obtain ⟨k1, v1⟩ := kv
      simp only [List.map_cons, List.mem_cons] at h
      push_neg at h
      simp [lookupKey, Ne.symm h.1, ih h.2]

theorem lookupKey_eraseKey_self (d : Doc) (k : String)
    (hnd : (d.map Prod.fst).Nodup) : lookupKey (eraseKey d k) k = none := by
  induction d with
  | nil => rfl
  | cons kv rest ih =>
      obtain ⟨k1, v1⟩ := kv
      simp only [List.map_cons, List.nodup_cons] at hnd
      by_cases h : k1 = k
      · subst h
        simpa [eraseKey] using lookupKey_eq_none_of_not_mem rest k1 hnd.1
      · simp [eraseKey, h, lookupKey, ih hnd.2]

theorem lookupKey_nonempty (d : Doc) (k : String) (v : Value)
    (h : lookupKey d k = some v) : d ≠ [] := by
  intro he
  subst he
  simp [lookupKey] at h

theorem serialize_doc_of_id (d : Doc) (v : Value) (hid : lookupKey d "_id" = some v) :
    serialize_doc d = convertOids (setKey (eraseKey d "_id") "id" (.str (strVal v))) := by
  have hne : d ≠ [] := lookupKey_nonempty d "_id" v hid
  simp [serialize_doc, hne, hid]

theorem serialize_doc_no_id (d : Doc) (hne : d ≠ []) (hid : lookupKey d "_id" = none) :
    serialize_doc d = convertOids d := by
  simp [serialize_doc, hne, hid]

theorem isObjectId_convertVal (v : Value) : isObjectId (convertVal v) = false := by
  cases v <;> rfl

theorem convertOids_no_objectId (d : Doc) :
    (convertOids d).all (fun kv => !isObjectId kv.2) = true := by
  induction d with
  | nil => rfl
  | cons kv rest ih => simp [convertOids, isObjectId_convertVal] at ih ⊢

theorem lookupKey_serialize_doc (d : Doc) (k : String) (v : Value)
    (hk1 : k ≠ "_id") (hk2 : k ≠ "id" ∨ lookupKey d "_id" = none)
    (hkv : lookupKey d k = some v) :
    lookupKey (serialize_doc d) k = some (convertVal v) := by
  have hne : d ≠ [] := lookupKey_nonempty d k v hkv
  cases hid : lookupKey d "_id" with
  | some w =>
      have hk2' : k ≠ "id" := by
        rcases hk2 with h | h
        · exact h
        · rw [hid] at h; exact absurd h (by simp)
      rw [serialize_doc_of_id d w hid, lookupKey_convertOids,
        lookupKey_setKey_ne _ _ _ _ (Ne.symm hk2'),
        lookupKey_eraseKey_ne _ _ _ (Ne.symm hk1), hkv]
      rfl
  | none =>
      rw [serialize_doc_no_id d hne hid, lookupKey_convertOids, hkv]
      rfl

/-! Helper lemmas about the heap model. -/

theorem heapGet_append (h : List Doc) (d : Doc) (r : Nat) (hr : r < h.length) :
    heapGet (h ++ [d]) r = heapGet h r := by
  simp [heapGet, List.getD_eq_getElem?_getD, List.getElem?_append_left hr]

theorem heapGet_append_self (h : List Doc) (d : Doc) :
    heapGet (h ++ [d]) h.length = d := by
  simp [heapGet, List.getD_eq_getElem?_getD]

theorem heapGet_set_ne (h : List Doc) (r1 r2 : Nat) (d : Doc) (hne : r1 ≠ r2) :
    heapGet (heapSet h r1 d) r2 = heapGet h r2 := by
  simp [heapGet, heapSet, List.getD_eq_getElem?_getD, List.getElem?_set_ne hne]

theorem heapGet_set_self (h : List Doc) (r : Nat) (d : Doc) (hr : r < h.length) :
    heapGet (heapSet h r d) r = d := by
  simp [heapGet, heapSet, List.getD_eq_getElem?_getD, List.getElem?_set_self, hr]

theorem length_serialize_docStep1 (h1 : List Doc) (r2 : Nat) :
    (serialize_docStep1 h1 r2).length = h1.length := by
  unfold serialize_docStep1
  cases lookupKey (heapGet h1 r2) "_id" <;> simp [heapSet]

theorem heapGet_serialize_docStep1_ne (h1 : List Doc) (r r2 : Nat) (hne : r2 ≠ r) :
    heapGet (serialize_docStep1 h1 r2) r = heapGet h1 r := by
  unfold serialize_docStep1
  cases lookupKey (heapGet h1 r2) "_id" <;> simp [heapGet_set_ne _ _ _ _ hne]

theorem heapGet_serialize_docStep2_ne (h1 : List Doc) (r r2 : Nat) (hne : r2 ≠ r) :
    heapGet (serialize_docStep2 h1 r2) r = heapGet h1 r := by
  unfold serialize_docStep2
  rw [heapGet_set_ne _ _ _ _ hne, heapGet_serialize_docStep1_ne _ _ _ hne]

theorem serialize_docM_frame (h : List Doc) (r : Nat) (hr : r < h.length) :
    heapGet (serialize_docM h r).1 r = heapGet h r := by
  by_cases hd : heapGet h r = []
  · simp [serialize_docM, hd]
  · have hne : h.length ≠ r := Nat.ne_of_gt hr
    unfold serialize_docM
    rw [if_neg hd]
    rw [heapGet_serialize_docStep2_ne _ _ _ hne, heapGet_append _ _ _ hr]

theorem heapGet_serialize_docStep2_self (h1 : List Doc) (r2 : Nat) (hr : r2 < h1.length) :
    heapGet (serialize_docStep2 h1 r2) r2 = convertOids (heapGet (serialize_docStep1 h1 r2) r2) := by
  unfold serialize_docStep2
  rw [heapGet_set_self]
  rw [length_serialize_docStep1]
  exact hr

theorem heapGet_serialize_docStep1_self (h1 : List Doc) (r2 : Nat) (hr : r2 < h1.length) :
    heapGet (serialize_docStep1 h1 r2) r2 =
      (match lookupKey (heapGet h1 r2) "_id" with
       | some v => setKey (eraseKey (heapGet h1 r2) "_id") "id" (.str (strVal v))
       | none => heapGet h1 r2) := by
  unfold serialize_docStep1
  cases lookupKey (heapGet h1 r2) "_id" <;> simp [heapGet_set_self _ _ _ hr]

theorem freshId_length (n : Nat) : (freshId n).length = 15 + n := by
  simp [freshId, String.length]
  omega

theorem freshId_ne (n m : Nat) (h : n ≠ m) : freshId n ≠ freshId m := by
  intro hc
  have := congrArg String.length hc
  rw [freshId_length, freshId_length] at this
  omega

theorem serialize_docM_result (h : List Doc) (r : Nat) :
    heapGet (serialize_docM h r).1 (serialize_docM h r).2 = serialize_doc (heapGet h r) := by
  by_cases hd : heapGet h r = []
  · simp [serialize_docM, hd, serialize_doc]
  · have hlen : h.length < (h ++ [heapGet h r]).length := by simp
    unfold serialize_docM
    rw [if_neg hd]
    rw [heapGet_serialize_docStep2_self _ _ hlen, heapGet_serialize_docStep1_self _ _ hlen,
      heapGet_append_self]
    cases hid : lookupKey (heapGet h r) "_id" with
    | some v => rw [serialize_doc_of_id _ _ hid]
    | none => rw [serialize_doc_no_id _ hd hid]

/-- The HTTP status of a handler outcome: the error status when an
HTTPException escapes, none for a normal response. -/
def responseStatus {α : Type} : Except HTTPError α → Option Nat
  | .error e => some e.status
  | .ok _ => none

/-! The claims. -/

/-- C1: the claim says GET /api/news/id responds 404 when the identifier names
no stored record. It does not: the 404 HTTPException is raised inside the try
block and the except clause catches it — HTTPException is an Exception — and
rewraps it as a 500 whose detail is the string form of the 404 exception. A
malformed identifier is indeed a 500, as the claim says. The theorem evaluates
the handler at the failing input: a well-formed identifier absent from the
store, against the claimed 404. -/
theorem get_news_item_missing_returns_500 :
    get_news_item (fun _ => .ok none) "507f1f77bcf86cd799439011" =
      .error ⟨500, "404: News item not found"⟩ ∧
    responseStatus (get_news_item (fun _ => .ok none) "507f1f77bcf86cd799439011") ≠ some 404 ∧
    get_news_item (fun _ => .ok none) "zzz" =
      .error ⟨500, invalidIdMessage "zzz"⟩ := by
  refine ⟨rfl, by decide, rfl⟩

/-- C2: for every behaviour of the store adapter — import raising ImportError
or any other exception, db being None, list_collection_names raising or
returning — GET /test returns a normal response (no exception escapes, hence
no 5xx), the failure is reflected as the corresponding descriptive string in
the database field, and at most 10 collection names are reported. -/
theorem test_database_never_5xx (beh : DbBehavior) (hasUrl hasName : Bool) :
    ∃ r : TestResponse, test_database beh hasUrl hasName = .ok r ∧
      r.collections.length ≤ 10 ∧
      r.database =
        (match beh with
         | .importError => "❌ Database module not found (run enable-database first)"
         | .otherError e => "❌ Error: " ++ e.take 50
         | .dbNone => "⚠️  Available but not initialized"
         | .available _ (.ok _) => "✅ Connected & Working"
         | .available _ (.error e) => "⚠️  Connected but Error: " ++ e.take 50) := by
  cases beh with
  | importError => exact ⟨_, rfl, by simp, rfl⟩
  | otherError e => exact ⟨_, rfl, by simp, rfl⟩
  | dbNone => exact ⟨_, rfl, by simp, rfl⟩
  | available name listColl =>
      cases listColl with
      | ok cols =>
          refine ⟨_, rfl, ?_, rfl⟩
          simp [test_database, List.length_take]
      | error e => exact ⟨_, rfl, by simp, rfl⟩

/-- C4: for every limit and every store, GET /api/news/featured with that
limit returns exactly what GET /api/news returns with featured=true and the
same limit, and its limit defaults to 6. -/
theorem featured_news_equiv_list_news
    (gd : String → Doc → Nat → Except String (List Doc)) (limit : Nat) :
    featured_news gd limit = list_news gd limit (some true) ∧
    featured_news gd = featured_news gd 6 ∧
    featured_news gd = list_news gd 6 (some true) :=
  ⟨rfl, rfl, rfl⟩

theorem parseNewsCreate_inv (p : Doc) (item : NewsCreate)
    (h : parseNewsCreate p = .ok item) :
    requireStr p "title_en" = .ok item.title_en ∧
    requireStr p "title_ar" = .ok item.title_ar ∧
    optionalStr p "body_en" = .ok item.body_en ∧
    optionalStr p "body_ar" = .ok item.body_ar ∧
    optionalStr p "image_url" = .ok item.image_url ∧
    optionalStr p "tag" = .ok item.tag ∧
    boolWithDefault p "featured" false = .ok item.featured := by
  unfold parseNewsCreate at h
  cases h1 : requireStr p "title_en" with
  | error m => exact absurd (by simpa only [h1] using h) (by simp)
  | ok te =>
  simp only [h1] at h
  cases h2 : requireStr p "title_ar" with
  | error m => exact absurd (by simpa only [h2] using h) (by simp)
  | ok ta =>
  simp only [h2] at h
  cases h3 : optionalStr p "body_en" with
  | error m => exact absurd (by simpa only [h3] using h) (by simp)
  | ok be =>
  simp only [h3] at h
  cases h4 : optionalStr p "body_ar" with
  | error m => exact absurd (by simpa only [h4] using h) (by simp)
  | ok ba =>
  simp only [h4] at h
  cases h5 : optionalStr p "image_url" with
  | error m => exact absurd (by simpa only [h5] using h) (by simp)
  | ok iu =>
  simp only [h5] at h
  cases h6 : optionalStr p "tag" with
  | error m => exact absurd (by simpa only [h6] using h) (by simp)
  | ok tg =>
  simp only [h6] at h
  cases h7 : boolWithDefault p "featured" false with
  | error m => exact absurd (by simpa only [h7] using h) (by simp)
  | ok fe =>
  simp only [h7, Except.ok.injEq] at h
  subst h
  exact ⟨rfl, rfl, rfl, rfl, rfl, rfl, rfl⟩

/-- C3: for every request body in which title_en or title_ar is absent, the
validation layer rejects the request with a 422 before the handler runs, and
no call to create_document is made for that request. -/
theorem create_rejects_missing_title
    (cd : String → Doc → Except String String) (payload : Doc)
    (h : lookupKey payload "title_en" = none ∨ lookupKey payload "title_ar" = none) :
    (post_api_news cd payload).2 = [] ∧
    responseStatus (post_api_news cd payload).1 = some 422 := by
  have hp : ∃ msg, parseNewsCreate payload = .error msg := by
    rcases h with h | h
    · exact ⟨"Field required: title_en", by simp [parseNewsCreate, requireStr, h]⟩
    · cases hte : requireStr payload "title_en" with
      | error m => exact ⟨m, by simp [parseNewsCreate, hte]⟩
      | ok te =>
          refine ⟨"Field required: title_ar", ?_⟩
          simp only [parseNewsCreate, hte]
          simp [requireStr, h]
  obtain ⟨msg, hmsg⟩ := hp
  simp [post_api_news, hmsg, responseStatus]

/-- Witness for C3: the empty request body lacks both titles; no store call is
made and the outcome is a 422. -/
theorem create_rejects_missing_title_witness :
    (post_api_news (fun _ _ => .ok "xyz") []).2 = [] ∧
    responseStatus (post_api_news (fun _ _ => .ok "xyz") []).1 = some 422 :=
  create_rejects_missing_title (fun _ _ => .ok "xyz") [] (Or.inl rfl)

/-- C6: for every payload that validates to a NewsCreate item, when
create_document succeeds with a non-empty identifier, POST /api/news returns
that identifier with status "created"; the one inserted document is
item.model_dump(), which carries exactly the seven schema fields (unknown
fields removed) with featured defaulting to false and the optional string
fields to None when absent from the payload. -/
theorem create_news_success
    (cd : String → Doc → Except String String) (payload : Doc)
    (item : NewsCreate) (newId : String)
    (hparse : parseNewsCreate payload = .ok item)
    (hcd : cd "newsitem" (model_dump item) = .ok newId)
    (_hne : newId ≠ "") :
    post_api_news cd payload = (.ok ⟨newId, "created"⟩, [("newsitem", model_dump item)]) ∧
    (model_dump item).map Prod.fst =
      ["title_en", "title_ar", "body_en", "body_ar", "image_url", "tag", "featured"] ∧
    (lookupKey payload "featured" = none →
      lookupKey (model_dump item) "featured" = some (.bool false)) ∧
    (lookupKey payload "body_en" = none →
      lookupKey (model_dump item) "body_en" = some .null) ∧
    (lookupKey payload "body_ar" = none →
      lookupKey (model_dump item) "body_ar" = some .null) ∧
    (lookupKey payload "image_url" = none →
      lookupKey (model_dump item) "image_url" = some .null) ∧
    (lookupKey payload "tag" = none →
      lookupKey (model_dump item) "tag" = some .null) := by
  obtain ⟨h1, h2, h3, h4, h5, h6, h7⟩ := parseNewsCreate_inv payload item hparse
  refine ⟨?_, rfl, ?_, ?_, ?_, ?_, ?_⟩
  · simp [post_api_news, hparse, create_news, hcd]
  · intro hf
    have hv : false = item.featured := by simpa [boolWithDefault, hf] using h7
    simp [model_dump, lookupKey, ← hv]
  · intro hf
    have hv : item.body_en = none := by simpa [optionalStr, hf] using h3.symm
    simp [model_dump, lookupKey, hv]
  · intro hf
    have hv : item.body_ar = none := by simpa [optionalStr, hf] using h4.symm
    simp [model_dump, lookupKey, hv]
  · intro hf
    have hv : item.image_url = none := by simpa [optionalStr, hf] using h5.symm
    simp [model_dump, lookupKey, hv]
  · intro hf
    have hv : item.tag = none := by simpa [optionalStr, hf] using h6.symm
    simp [model_dump, lookupKey, hv]

/-- A minimal valid request body: both titles, nothing else. -/
def createDemoPayload : Doc :=
  [("title_en", .str "Hello"), ("title_ar", .str "Ahlan")]

/-- The NewsCreate record that createDemoPayload validates to. -/
def createDemoItem : NewsCreate :=
  ⟨"Hello", "Ahlan", none, none, none, none, false⟩

/-- Witness for C6: the minimal payload is created under a store returning a
non-empty identifier, and the inserted document carries featured=false. -/
theorem create_news_success_witness :
    post_api_news (fun _ _ => .ok "57a98d98e4b0abc") createDemoPayload =
      (.ok ⟨"57a98d98e4b0abc", "created"⟩, [("newsitem", model_dump createDemoItem)]) ∧
    lookupKey (model_dump createDemoItem) "featured" = some (.bool false) :=
  ⟨(create_news_success (fun _ _ => .ok "57a98d98e4b0abc") createDemoPayload
      createDemoItem "57a98d98e4b0abc" rfl rfl (by decide)).1,
   (create_news_success (fun _ _ => .ok "57a98d98e4b0abc") createDemoPayload
      createDemoItem "57a98d98e4b0abc" rfl rfl (by decide)).2.2.1 rfl⟩

/-- C5: GET /api/news defaults limit to 12 with an empty filter; the only
store query it makes carries exactly the filter featured: b when the parameter
is given and the empty filter when omitted (two stores agreeing on that one
query get identical responses); and when the store honours the filter, every
record returned for featured=true has featured equal to true. -/
theorem list_news_query_contract
    (gd gd2 : String → Doc → Nat → Except String (List Doc))
    (limit : Nat) (b : Bool) (items : List Doc)
    (hsome : gd "newsitem" [("featured", Value.bool b)] limit =
      gd2 "newsitem" [("featured", Value.bool b)] limit)
    (hnone : gd "newsitem" [] limit = gd2 "newsitem" [] limit)
    (hok : gd "newsitem" [("featured", Value.bool true)] limit = .ok items)
    (hfilter : items.all (fun d => matchesFilter [("featured", Value.bool true)] d) = true) :
    list_news gd = list_news gd 12 none ∧
    list_news gd limit (some b) = list_news gd2 limit (some b) ∧
    list_news gd limit none = list_news gd2 limit none ∧
    list_news gd limit (some true) = .ok (items.map serialize_doc) ∧
    (items.map serialize_doc).all
      (fun r => lookupKey r "featured" == some (Value.bool true)) = true := by
  refine ⟨rfl, ?_, ?_, ?_, ?_⟩
  · simp only [list_news, setKey]
    rw [hsome]
  · simp only [list_news]
    rw [hnone]
  · simp only [list_news, setKey]
    rw [hok]
  · rw [List.all_eq_true] at hfilter ⊢
    intro r hr
    obtain ⟨d, hd, rfl⟩ := List.mem_map.mp hr
    have hm := hfilter d hd
    simp only [matchesFilter, List.all_cons, List.all_nil, Bool.and_true,
      beq_iff_eq] at hm
    have := lookupKey_serialize_doc d "featured" (Value.bool true)
      (by decide) (Or.inl (by decide)) hm
    simp [this, convertVal]

/-- Two stored records, one featured, one not, to exercise the listing. -/
def demoDocs : List Doc :=
  [ [("_id", .objectId "aaaaaaaaaaaaaaaaaaaaaaaa"), ("featured", .bool true)],
    [("_id", .objectId "bbbbbbbbbbbbbbbbbbbbbbbb"), ("featured", .bool false)] ]

/-- A store over demoDocs honouring filter and limit. -/
def demoStore : String → Doc → Nat → Except String (List Doc) :=
  fun _ filter limit => .ok ((demoDocs.filter (matchesFilter filter)).take limit)

/-- Witness for C5: against the two-record store, the featured=true listing
returns exactly the serialized featured record. -/
theorem list_news_query_contract_witness :
    list_news demoStore 5 (some true) =
      .ok [[("featured", Value.bool true), ("id", Value.str "aaaaaaaaaaaaaaaaaaaaaaaa")]] ∧
    ([[("_id", Value.objectId "aaaaaaaaaaaaaaaaaaaaaaaa"), ("featured", Value.bool true)]].map
      serialize_doc).all (fun r => lookupKey r "featured" == some (Value.bool true)) = true := by
  have h := list_news_query_contract demoStore demoStore 5 true
    [[("_id", .objectId "aaaaaaaaaaaaaaaaaaaaaaaa"), ("featured", .bool true)]]
    rfl rfl rfl (by decide)
  exact ⟨h.2.2.2.1, h.2.2.2.2⟩

/-- C7: every document a read endpoint hands to a client has gone through
serialize_doc (the list endpoint maps it over the store result; the single
lookup returns it directly), and for a stored document with an internal _id
the serialized form drops _id, exposes id holding the string form of the
identifier, and contains no ObjectId value anywhere else. -/
theorem read_serialization_invariant
    (items : List Doc) (limit : Nat) (featured : Option Bool)
    (d : Doc) (v : Value) (news_id : String)
    (hnd : (d.map Prod.fst).Nodup) (hid : lookupKey d "_id" = some v)
    (hvalid : isValidObjectIdHex news_id = true) :
    list_news (fun _ _ _ => .ok items) limit featured = .ok (items.map serialize_doc) ∧
    get_news_item (fun _ => .ok (some d)) news_id = .ok (serialize_doc d) ∧
    lookupKey (serialize_doc d) "_id" = none ∧
    lookupKey (serialize_doc d) "id" = some (.str (strVal v)) ∧
    (serialize_doc d).all (fun kv => !isObjectId kv.2) = true := by
  have hne : d ≠ [] := lookupKey_nonempty d "_id" v hid
  have hser := serialize_doc_of_id d v hid
  refine ⟨?_, ?_, ?_, ?_, ?_⟩
  · cases featured <;> rfl
  · simp [get_news_item, hvalid, hne]
  · rw [hser, lookupKey_convertOids,
      lookupKey_setKey_ne _ _ _ _ (by decide),
      lookupKey_eraseKey_self d "_id" hnd]
    rfl
  · rw [hser, lookupKey_convertOids, lookupKey_setKey_self]
    rfl
  · rw [hser]
    exact convertOids_no_objectId _

/-- Witness for C7: a record holding its _id and a nested ObjectId serializes
to id plus the stringified value, with _id gone. -/
theorem read_serialization_invariant_witness :
    list_news (fun _ _ _ => .ok ([] : List Doc)) 12 none = .ok [] ∧
    lookupKey (serialize_doc [("_id", Value.objectId "cccccccccccccccccccccccc"),
      ("ref", Value.objectId "dddddddddddddddddddddddd")]) "_id" = none ∧
    lookupKey (serialize_doc [("_id", Value.objectId "cccccccccccccccccccccccc"),
      ("ref", Value.objectId "dddddddddddddddddddddddd")]) "id" =
      some (Value.str "cccccccccccccccccccccccc") ∧
    (serialize_doc [("_id", Value.objectId "cccccccccccccccccccccccc"),
      ("ref", Value.objectId "dddddddddddddddddddddddd")]).all
      (fun kv => !isObjectId kv.2) = true := by
  have h := read_serialization_invariant ([] : List Doc) 12 none
    [("_id", Value.objectId "cccccccccccccccccccccccc"),
     ("ref", Value.objectId "dddddddddddddddddddddddd")]
    (Value.objectId "cccccccccccccccccccccccc") "507f1f77bcf86cd799439011"
    (by decide) (by decide) (by decide)
  exact ⟨h.1, h.2.2.1, h.2.2.2.1, h.2.2.2.2⟩

theorem seed_news_eq (st : Store) :
    seed_news st =
      (.ok ⟨3, [freshId st.nextId, freshId (st.nextId + 1), freshId (st.nextId + 2)]⟩,
       ⟨st.docs ++
          [("newsitem", setKey sample1 "_id" (.objectId (freshId st.nextId))),
           ("newsitem", setKey sample2 "_id" (.objectId (freshId (st.nextId + 1)))),
           ("newsitem", setKey sample3 "_id" (.objectId (freshId (st.nextId + 2))))],
        st.nextId + 3⟩) := by
  simp [seed_news, seed_samples, Store.create_document, List.append_assoc]

/-- C8: every call to POST /api/news/seed inserts exactly the three sample
records, freshly identified, and reports inserted=3 with their identifiers; a
second call inserts three further records whose identifiers are disjoint from
the first call's, so seeding is not idempotent. -/
theorem seed_news_inserts_three (st : Store) :
    (seed_news st).1 =
      .ok ⟨3, [freshId st.nextId, freshId (st.nextId + 1), freshId (st.nextId + 2)]⟩ ∧
    (seed_news st).2.docs =
      st.docs ++
        [("newsitem", setKey sample1 "_id" (.objectId (freshId st.nextId))),
         ("newsitem", setKey sample2 "_id" (.objectId (freshId (st.nextId + 1)))),
         ("newsitem", setKey sample3 "_id" (.objectId (freshId (st.nextId + 2))))] ∧
    (seed_news st).2.docs.length = st.docs.length + 3 ∧
    (seed_news (seed_news st).2).1 =
      .ok ⟨3, [freshId (st.nextId + 3), freshId (st.nextId + 4), freshId (st.nextId + 5)]⟩ ∧
    (seed_news (seed_news st).2).2.docs.length = st.docs.length + 6 ∧
    ([freshId (st.nextId + 3), freshId (st.nextId + 4), freshId (st.nextId + 5)].all
      (fun i =>
        !([freshId st.nextId, freshId (st.nextId + 1), freshId (st.nextId + 2)].contains i)))
      = true := by
  have hne : ∀ a b : Nat, a ≠ b → (freshId a == freshId b) = false :=
    fun a b h => beq_eq_false_iff_ne.mpr (freshId_ne a b h)
  refine ⟨?_, ?_, ?_, ?_, ?_, ?_⟩
  · rw [seed_news_eq]
  · rw [seed_news_eq]
  · rw [seed_news_eq]
    simp
  · rw [seed_news_eq, seed_news_eq]
  · rw [seed_news_eq, seed_news_eq]
    simp
  · simp only [List.all_cons, List.all_nil, List.contains_cons, List.contains_nil]
    simp [hne _ _ (by omega : st.nextId + 3 ≠ st.nextId),
      hne _ _ (by omega : st.nextId + 3 ≠ st.nextId + 1),
      hne _ _ (by omega : st.nextId + 3 ≠ st.nextId + 2),
      hne _ _ (by omega : st.nextId + 4 ≠ st.nextId),
      hne _ _ (by omega : st.nextId + 4 ≠ st.nextId + 1),
      hne _ _ (by omega : st.nextId + 4 ≠ st.nextId + 2),
      hne _ _ (by omega : st.nextId + 5 ≠ st.nextId),
      hne _ _ (by omega : st.nextId + 5 ≠ st.nextId + 1),
      hne _ _ (by omega : st.nextId + 5 ≠ st.nextId + 2)]

/-- C9: of the three seeded records exactly the two titled "AIO launches
next-gen automation suite" and "ISO 27001 certification achieved" carry
featured=true, and after seeding once into an empty store,
GET /api/news/featured?limit=6 returns exactly those two records (serialized,
in insertion order). -/
theorem seed_then_featured_exact :
    (seed_samples.filter
        (fun d => lookupKey d "featured" == some (Value.bool true))).map
      (fun d => lookupKey d "title_en") =
      [some (.str "AIO launches next-gen automation suite"),
       some (.str "ISO 27001 certification achieved")] ∧
    (seed_news ⟨[], 0⟩).1 = .ok ⟨3, [freshId 0, freshId 1, freshId 2]⟩ ∧
    featured_news (storeGetDocs (seed_news ⟨[], 0⟩).2) =
      .ok [serialize_doc (setKey sample1 "_id" (.objectId (freshId 0))),
           serialize_doc (setKey sample3 "_id" (.objectId (freshId 2)))] :=
  ⟨rfl, rfl, rfl⟩

/-- The counterexample document for C10: it already carries an id field next
to its _id. -/
def clobberDoc : Doc :=
  [("_id", .objectId "eeeeeeeeeeeeeeeeeeeeeeee"), ("id", .str "keepme")]

/-- C10 as stated is false: serialize_doc does not preserve every key other
than _id — when the document already has an id field, its value is overwritten
by the stringified _id although it was no ObjectId. -/
theorem serialize_doc_clobbers_id :
    lookupKey clobberDoc "id" = some (.str "keepme") ∧
    isObjectId (.str "keepme") = false ∧
    lookupKey (serialize_doc clobberDoc) "id" =
      some (.str "eeeeeeeeeeeeeeeeeeeeeeee") ∧
    Value.str "eeeeeeeeeeeeeeeeeeeeeeee" ≠ Value.str "keepme" := by
  refine ⟨rfl, rfl, rfl, by decide⟩

/-- C10 amended: serialize_doc never mutates the caller's dictionary (the
returned dict is a fresh cell and the caller's cell is unchanged, its content
being the pure serialize_doc of the input); it preserves every key other than
_id — and other than id when _id is present — with its value unchanged except
ObjectId values, which become their string forms; and an empty or absent
document is returned unchanged. -/
theorem serialize_doc_frame_and_preserve (hp : List Doc) (r : Nat) (d : Doc)
    (k : String) (v : Value)
    (hr : r < hp.length) (hd : heapGet hp r = d)
    (hk1 : k ≠ "_id") (hk2 : k ≠ "id" ∨ lookupKey d "_id" = none)
    (hkv : lookupKey d k = some v) :
    heapGet (serialize_docM hp r).1 r = d ∧
    heapGet (serialize_docM hp r).1 (serialize_docM hp r).2 = serialize_doc d ∧
    lookupKey (serialize_doc d) k = some (convertVal v) ∧
    serialize_doc ([] : Doc) = [] ∧
    serialize_docOpt none = none ∧
    serialize_docM [([] : Doc)] 0 = ([[]], 0) := by
  refine ⟨?_, ?_, ?_, rfl, rfl, rfl⟩
  · rw [serialize_docM_frame hp r hr, hd]
  · rw [serialize_docM_result hp r, hd]
  · exact lookupKey_serialize_doc d k v hk1 hk2 hkv

/-- Witness for C10: a one-cell heap holding a record with a nested ObjectId;
the caller's cell is untouched and the value survives stringified. -/
theorem serialize_doc_frame_and_preserve_witness :
    heapGet (serialize_docM [[("_id", Value.objectId "ffffffffffffffffffffffff"),
      ("ref", Value.objectId "abcdefabcdefabcdefabcdef")]] 0).1 0 =
      [("_id", Value.objectId "ffffffffffffffffffffffff"),
       ("ref", Value.objectId "abcdefabcdefabcdefabcdef")] ∧
    lookupKey (serialize_doc [("_id", Value.objectId "ffffffffffffffffffffffff"),
      ("ref", Value.objectId "abcdefabcdefabcdefabcdef")]) "ref" =
      some (Value.str "abcdefabcdefabcdefabcdef") := by
  have h := serialize_doc_frame_and_preserve
    [[("_id", Value.objectId "ffffffffffffffffffffffff"),
      ("ref", Value.objectId "abcdefabcdefabcdefabcdef")]] 0
    [("_id", Value.objectId "ffffffffffffffffffffffff"),
     ("ref", Value.objectId "abcdefabcdefabcdefabcdef")]
    "ref" (Value.objectId "abcdefabcdefabcdefabcdef")
    (by decide) rfl (by decide) (Or.inl (by decide)) rfl
  exact ⟨h.1, h.2.2.1⟩

end NewsBackend
